import Mathlib

/-!
Verification of the `llm-execution-budget` library: a client-side guard that
bounds the cost of an agentic LLM loop (call attempts, tool invocations,
wall-clock time, per-call output size, cumulative tokens).

The embedding follows `src/budget.ts` and `src/errors.ts` directly for the
budget state, snapshot builder and `recordToolCall`.  The call guard
(`guardedResponse`) is exported by the package and exercised by its test
suite, but its defining module is not part of the available sources, so it
is modelled from the specification (sections 4.2 and 4.3), as are the
usage-extraction and clamping helpers it uses.

Machine integers are modelled as `Nat` for counters and token counts and
`Int` for clock readings; all scenarios in the tests stay far below any
overflow boundary, and JavaScript numbers behave as exact integers there.
The injected clock is modelled by passing the current reading `t` explicitly
to each guarded operation (each operation reads the clock once at entry).
-/

namespace LLMBudget

/-- The five budget-exhaustion reasons, from `src/types` via `errors.ts`
and the README error shape. -/
inductive BudgetReason where
  | TIMEOUT
  | STEP_LIMIT
  | TOOL_LIMIT
  | TOKEN_LIMIT
  | USAGE_UNAVAILABLE
deriving DecidableEq, Repr

/-- Accounting policy for missing usage data (`tokenAccountingMode`). -/
inductive TokenAccountingMode where
  | failOpen
  | failClosed
deriving DecidableEq, Repr

/-- Immutable configuration (`BudgetLimits`), set once at construction. -/
structure BudgetLimits where
  executionId : Option String := none
  maxSteps : Nat
  maxToolCalls : Nat
  timeoutMs : Nat
  maxOutputTokens : Nat
  maxTokens : Nat
  tokenAccountingMode : TokenAccountingMode := .failOpen
deriving DecidableEq, Repr

/-- Point-in-time view of state plus limits (`BudgetSnapshot`),
built by `createSnapshot` in `src/budget.ts`. -/
structure BudgetSnapshot where
  stepsUsed : Nat
  maxSteps : Nat
  toolCallsUsed : Nat
  maxToolCalls : Nat
  tokensUsed : Nat
  maxTokens : Nat
  overshoot : Option Nat
  elapsedMs : Int
  timeoutMs : Nat
  tokenAccountingReliable : Bool
deriving DecidableEq, Repr

/-- Mutable per-instance state (`BudgetState` in `src/budget.ts`). -/
structure BudgetState where
  stepsUsed : Nat
  toolCallsUsed : Nat
  tokensUsed : Nat
  startTime : Int
  terminatedReason : Option BudgetReason
  terminatedSnapshot : Option BudgetSnapshot
  tokenAccountingReliable : Bool
deriving DecidableEq, Repr

/-- The single budget error kind (`BudgetError` in `src/errors.ts`).
TypeScript types are erased at runtime, and the stored-termination branch of
`recordToolCall` forwards `state.terminatedSnapshot` through a non-null
assertion, so the snapshot slot is modelled as an `Option`; freshly built
errors always carry `some` snapshot. -/
structure BudgetError where
  reason : BudgetReason
  snapshot : Option BudgetSnapshot
  executionId : Option String
deriving DecidableEq, Repr

/-- Translation of `createSnapshot` (`src/budget.ts` lines 28-42): copies the
counters and limits, computes `elapsedMs = now() - startTime`, and records the
optional overshoot argument. `t` is the clock reading. -/
def createSnapshot (limits : BudgetLimits) (state : BudgetState) (t : Int)
    (overshoot : Option Nat) : BudgetSnapshot :=
  { stepsUsed := state.stepsUsed
    maxSteps := limits.maxSteps
    toolCallsUsed := state.toolCallsUsed
    maxToolCalls := limits.maxToolCalls
    tokensUsed := state.tokensUsed
    maxTokens := limits.maxTokens
    overshoot := overshoot
    elapsedMs := t - state.startTime
    timeoutMs := limits.timeoutMs
    tokenAccountingReliable := state.tokenAccountingReliable }

/-- Initial state built by `createBudget` (`src/budget.ts` lines 48-56):
all counters zero, `startTime` from the clock, no termination, accounting
reliable. -/
def initState (t0 : Int) : BudgetState :=
  { stepsUsed := 0
    toolCallsUsed := 0
    tokensUsed := 0
    startTime := t0
    terminatedReason := none
    terminatedSnapshot := none
    tokenAccountingReliable := true }

/-- Translation of `recordToolCall` (`src/budget.ts` lines 59-95).  Checks in
source order: (1) `elapsed >= timeoutMs` throws TIMEOUT; (2)
`toolCallsUsed + 1 > maxToolCalls` throws TOOL_LIMIT; (3) a stored
`terminatedReason` is re-thrown with the stored snapshot; otherwise
`toolCallsUsed` is incremented.  The returned pair is (thrown error if any,
state after the operation); every `throw` in the source happens before the
increment, which the translation renders by returning `state` unchanged on
each error branch. -/
def recordToolCall (limits : BudgetLimits) (state : BudgetState) (t : Int) :
    Option BudgetError × BudgetState :=
  let elapsed := t - state.startTime
  if elapsed ≥ (limits.timeoutMs : Int) then
    (some { reason := .TIMEOUT
            snapshot := some (createSnapshot limits state t none)
            executionId := limits.executionId }, state)
  else if state.toolCallsUsed + 1 > limits.maxToolCalls then
    (some { reason := .TOOL_LIMIT
            snapshot := some (createSnapshot limits state t none)
            executionId := limits.executionId }, state)
  else
    match state.terminatedReason with
    | some r =>
        (some { reason := r
                snapshot := state.terminatedSnapshot
                executionId := limits.executionId }, state)
    | none =>
        (none, { state with toolCallsUsed := state.toolCallsUsed + 1 })

/-- Usage metadata optionally carried by a call result
(`{ total_tokens }` or `{ prompt_tokens, completion_tokens }`). -/
structure Usage where
  total_tokens : Option Nat := none
  prompt_tokens : Option Nat := none
  completion_tokens : Option Nat := none
deriving DecidableEq, Repr

/-- Call parameters: a mapping that may carry a caller-requested
output-size hint (`max_output_tokens`). -/
structure CallParams where
  max_output_tokens : Option Nat := none
deriving DecidableEq, Repr

/-- A call result: an opaque payload plus an optional usage field. -/
structure Response (α : Type) where
  payload : α
  usage : Option Usage
deriving DecidableEq, Repr

/-- Modelled from the spec: usage extraction (section 4.3) of the call guard,
whose source module is not available.  Order: (a) a direct total-token count
if present; (b) otherwise the sum of prompt and completion counts, only if
both are present; (c) otherwise usage is unavailable. -/
def extractUsage (u : Option Usage) : Option Nat :=
  match u with
  | none => none
  | some usage =>
    match usage.total_tokens with
    | some tot => some tot
    | none =>
      match usage.prompt_tokens with
      | none => none
      | some p =>
        match usage.completion_tokens with
        | none => none
        | some c => some (p + c)

/-- Modelled from the spec: output clamping (section 4.2 step 3) of the call
guard, whose source module is not available.  The output-size field written
into the parameters is `min(callerRequested, maxOutputTokens)` when the
caller supplied a value and `maxOutputTokens` otherwise. -/
def clampParams (limits : BudgetLimits) (params : CallParams) : CallParams :=
  { params with
      max_output_tokens :=
        some (match params.max_output_tokens with
              | some v => min v limits.maxOutputTokens
              | none => limits.maxOutputTokens) }

/-- Modelled from the spec: the before-call check sequence (section 4.1) of
the call guard, whose source module is not available.  In strict order:
(1) `elapsed >= timeoutMs` gives TIMEOUT; (2) `stepsUsed + 1 > maxSteps`
gives STEP_LIMIT; (3) a stored termination is re-raised with the stored
reason and the stored snapshot. -/
def preCallCheck (limits : BudgetLimits) (state : BudgetState) (t : Int) :
    Option BudgetError :=
  if t - state.startTime ≥ (limits.timeoutMs : Int) then
    some { reason := .TIMEOUT
           snapshot := some (createSnapshot limits state t none)
           executionId := limits.executionId }
  else if state.stepsUsed + 1 > limits.maxSteps then
    some { reason := .STEP_LIMIT
           snapshot := some (createSnapshot limits state t none)
           executionId := limits.executionId }
  else
    match state.terminatedReason with
    | some r =>
        some { reason := r
               snapshot := state.terminatedSnapshot
               executionId := limits.executionId }
    | none => none

/-- Modelled from the spec: steps 5 and 6 of the call guard (section 4.2),
whose source module is not available, applied after the call function
succeeded.  If usage is unavailable: fail-closed raises USAGE_UNAVAILABLE
and discards the result; fail-open flips `tokenAccountingReliable` to false,
adds nothing to `tokensUsed`, and returns the result.  If usage is
available it is added to `tokensUsed`, and the cumulative-token boundary
check (only when accounting is reliable) records a TOKEN_LIMIT termination
with a snapshot taken at this instant, including
`overshoot = tokensUsed - maxTokens`; the result is still returned. -/
def settleCall {α : Type} (limits : BudgetLimits) (state : BudgetState)
    (t : Int) (resp : Response α) :
    Except BudgetError (Response α) × BudgetState :=
  match extractUsage resp.usage with
  | none =>
    match limits.tokenAccountingMode with
    | .failClosed =>
        (.error { reason := .USAGE_UNAVAILABLE
                  snapshot := some (createSnapshot limits state t none)
                  executionId := limits.executionId }, state)
    | .failOpen =>
        (.ok resp, { state with tokenAccountingReliable := false })
  | some u =>
    let state' := { state with tokensUsed := state.tokensUsed + u }
    if state'.tokenAccountingReliable ∧ state'.tokensUsed > limits.maxTokens then
      let snap := createSnapshot limits state' t
        (some (state'.tokensUsed - limits.maxTokens))
      (.ok resp, { state' with
                     terminatedReason := some .TOKEN_LIMIT
                     terminatedSnapshot := some snap })
    else
      (.ok resp, state')

/-- Outcome of a guarded call: either a budget error or the unmodified
error raised by the externally supplied call function. -/
inductive GuardFailure (ε : Type) where
  | budget (e : BudgetError)
  | external (e : ε)
deriving DecidableEq, Repr

/-- Modelled from the spec: the call guard `guardedResponse` (section 4.2),
whose source module is not available; the package exports it and the test
suite exercises it.  Algorithm: run the before-call checks (no match
invokes the call function, no match increments `stepsUsed`); increment
`stepsUsed`; clamp the output-size parameter; invoke the call function on
the clamped parameters, propagating its error unchanged with the step
consumed; on success settle token accounting and the cumulative boundary
check.  `t` is the clock reading at entry. -/
def guardedResponse {ε α : Type} (limits : BudgetLimits) (state : BudgetState)
    (t : Int) (params : CallParams)
    (fn : CallParams → Except ε (Response α)) :
    Except (GuardFailure ε) (Response α) × BudgetState :=
  match preCallCheck limits state t with
  | some e => (.error (.budget e), state)
  | none =>
    let state1 := { state with stepsUsed := state.stepsUsed + 1 }
    match fn (clampParams limits params) with
    | .error err => (.error (.external err), state1)
    | .ok resp =>
      match settleCall limits state1 t resp with
      | (.error e, s2) => (.error (.budget e), s2)
      | (.ok r, s2) => (.ok r, s2)

/-- One guarded operation against a budget instance: a tool recording or a
guarded call, each carrying the clock reading at its entry. -/
inductive GuardOp (ε α : Type) where
  | tool (t : Int)
  | call (t : Int) (params : CallParams) (fn : CallParams → Except ε (Response α))

/-- The state after one guarded operation (its error or result discarded). -/
def applyOp {ε α : Type} (limits : BudgetLimits) (state : BudgetState) :
    GuardOp ε α → BudgetState
  | .tool t => (recordToolCall limits state t).2
  | .call t params fn => (guardedResponse limits state t params fn).2

/-- The state after a sequence of guarded operations. -/
def runOps {ε α : Type} (limits : BudgetLimits) (state : BudgetState)
    (ops : List (GuardOp ε α)) : BudgetState :=
  ops.foldl (applyOp limits) state

/-- A sequence of tool recordings at the given clock readings, stopping at
the first error (a thrown error aborts the calling loop). -/
def recordSeq (limits : BudgetLimits) (state : BudgetState) :
    List Int → Option BudgetError × BudgetState
  | [] => (none, state)
  | t :: ts =>
    match recordToolCall limits state t with
    | (some e, s') => (some e, s')
    | (none, s') => recordSeq limits s' ts

/-! ### Concrete scenarios from the test suite -/

/-- Limits of the token-limit test: generous step, tool and time budgets,
cumulative token budget 500. -/
def exLimits : BudgetLimits :=
  { maxSteps := 10, maxToolCalls := 10, timeoutMs := 10000,
    maxOutputTokens := 1000, maxTokens := 500 }

/-- A call function whose response reports 600 total tokens. -/
def exFn600 : CallParams → Except Unit (Response Unit) :=
  fun _ => .ok { payload := (), usage := some { total_tokens := some 600 } }

/-- The state after the overshooting call of the token-limit test: the call
succeeded and stored a TOKEN_LIMIT termination. -/
def exTerm : BudgetState :=
  (guardedResponse exLimits (initState 0) 0 {} exFn600).2

/-- Limits of the precedence test where STEP_LIMIT beats the stored
TOKEN_LIMIT: one allowed step, token budget 50. -/
def ceLimits : BudgetLimits :=
  { maxSteps := 1, maxToolCalls := 10, timeoutMs := 10000,
    maxOutputTokens := 1000, maxTokens := 50 }

/-- A call function whose response reports 100 total tokens. -/
def ceFn100 : CallParams → Except Unit (Response Unit) :=
  fun _ => .ok { payload := (), usage := some { total_tokens := some 100 } }

/-- The state after the overshooting call under `ceLimits`: step budget
fully consumed and a TOKEN_LIMIT termination stored. -/
def ceTerm : BudgetState :=
  (guardedResponse ceLimits (initState 0) 0 {} ceFn100).2

/-- Limits with a single allowed tool call and token budget 50. -/
def cl4 : BudgetLimits :=
  { maxSteps := 10, maxToolCalls := 1, timeoutMs := 10000,
    maxOutputTokens := 1000, maxTokens := 50 }

/-- A state with the tool budget fully consumed and then a TOKEN_LIMIT
termination stored: one accepted tool recording followed by an
overshooting call. -/
def st4 : BudgetState :=
  (guardedResponse cl4 (recordToolCall cl4 (initState 0) 0).2 0 {} ceFn100).2

/-- Fail-closed limits of the partial-usage test. -/
def fcLimits : BudgetLimits :=
  { maxSteps := 10, maxToolCalls := 10, timeoutMs := 10000,
    maxOutputTokens := 1000, maxTokens := 10000,
    tokenAccountingMode := .failClosed }

/-- A call function whose response carries only the prompt-token count. -/
def fnPromptOnly : CallParams → Except Unit (Response Unit) :=
  fun _ => .ok { payload := (), usage := some { prompt_tokens := some 100 } }

/-- Fail-open limits of the missing-usage test: a very low token budget. -/
def foLimits : BudgetLimits :=
  { maxSteps := 5, maxToolCalls := 10, timeoutMs := 10000,
    maxOutputTokens := 1000, maxTokens := 100 }

/-- A call function whose response carries no usage data. -/
def fnNoUsage : CallParams → Except Unit (Response Unit) :=
  fun _ => .ok { payload := (), usage := none }

/-- A call function whose response reports 5000 total tokens. -/
def fnHigh : CallParams → Except Unit (Response Unit) :=
  fun _ => .ok { payload := (), usage := some { total_tokens := some 5000 } }

/-- The state after the first fail-open call with missing usage: accounting
unreliable, no termination. -/
def foState : BudgetState :=
  (guardedResponse foLimits (initState 0) 0 {} fnNoUsage).2

/-- Limits of the tool-limit test: two allowed tool calls. -/
def tlLimits : BudgetLimits :=
  { maxSteps := 10, maxToolCalls := 2, timeoutMs := 10000,
    maxOutputTokens := 1000, maxTokens := 10000 }

/-- A call function that raises the external error 7. -/
def fnThrow : CallParams → Except Nat (Response Unit) :=
  fun _ => .error 7

/-- Limits of the output-cap test: per-call output cap 500. -/
def ocLimits : BudgetLimits :=
  { maxSteps := 10, maxToolCalls := 10, timeoutMs := 10000,
    maxOutputTokens := 500, maxTokens := 10000 }

/-- A call function that echoes the parameters it received back in the
payload of its response, reporting 100 total tokens. -/
def fnEcho : CallParams → Except Unit (Response CallParams) :=
  fun p => .ok { payload := p, usage := some { total_tokens := some 100 } }

/-- The snapshot taken at the instant a guarded call crosses the cumulative
token boundary, with the step counted and the usage `u` added: its
overshoot field is the token count past the limit at that instant.
Abbreviation for stating theorems about the crossing call. -/
def tokenCrossSnap (limits : BudgetLimits) (state : BudgetState) (t : Int)
    (u : Nat) : BudgetSnapshot :=
  createSnapshot limits
    { state with
        stepsUsed := state.stepsUsed + 1
        tokensUsed := state.tokensUsed + u } t
    (some (state.tokensUsed + u - limits.maxTokens))

/-- The state left behind by a guarded call that crosses the cumulative
token boundary: step counted, usage added, TOKEN_LIMIT termination stored
with the snapshot taken at that instant.  Abbreviation for stating
theorems about the crossing call. -/
def tokenCrossState (limits : BudgetLimits) (state : BudgetState) (t : Int)
    (u : Nat) : BudgetState :=
  { state with
      stepsUsed := state.stepsUsed + 1
      tokensUsed := state.tokensUsed + u
      terminatedReason := some .TOKEN_LIMIT
      terminatedSnapshot := some (tokenCrossSnap limits state t u) }

/-! ### Helper lemmas -/

theorem recordToolCall_timeout (limits : BudgetLimits) (state : BudgetState)
    (t : Int) (h : t - state.startTime ≥ (limits.timeoutMs : Int)) :
    recordToolCall limits state t =
      (some { reason := .TIMEOUT
              snapshot := some (createSnapshot limits state t none)
              executionId := limits.executionId }, state) := by
  simp only [recordToolCall, if_pos h]

theorem recordToolCall_toolLimit (limits : BudgetLimits) (state : BudgetState)
    (t : Int) (h : ¬ t - state.startTime ≥ (limits.timeoutMs : Int))
    (htool : state.toolCallsUsed + 1 > limits.maxToolCalls) :
    recordToolCall limits state t =
      (some { reason := .TOOL_LIMIT
              snapshot := some (createSnapshot limits state t none)
              executionId := limits.executionId }, state) := by
  simp only [recordToolCall, if_neg h, if_pos htool]

theorem recordToolCall_stored (limits : BudgetLimits) (state : BudgetState)
    (t : Int) (r : BudgetReason)
    (h : ¬ t - state.startTime ≥ (limits.timeoutMs : Int))
    (htool : ¬ state.toolCallsUsed + 1 > limits.maxToolCalls)
    (hterm : state.terminatedReason = some r) :
    recordToolCall limits state t =
      (some { reason := r
              snapshot := state.terminatedSnapshot
              executionId := limits.executionId }, state) := by
  simp only [recordToolCall, if_neg h, if_neg htool, hterm]

theorem recordToolCall_ok (limits : BudgetLimits) (state : BudgetState)
    (t : Int) (h : ¬ t - state.startTime ≥ (limits.timeoutMs : Int))
    (htool : ¬ state.toolCallsUsed + 1 > limits.maxToolCalls)
    (hterm : state.terminatedReason = none) :
    recordToolCall limits state t =
      (none, { state with toolCallsUsed := state.toolCallsUsed + 1 }) := by
  simp only [recordToolCall, if_neg h, if_neg htool, hterm]

/-- Every error branch of `recordToolCall` returns the state unchanged. -/
theorem recordToolCall_error_state (limits : BudgetLimits) (state : BudgetState)
    (t : Int) (h : (recordToolCall limits state t).1.isSome) :
    (recordToolCall limits state t).2 = state := by
  by_cases h1 : t - state.startTime ≥ (limits.timeoutMs : Int)
  · rw [recordToolCall_timeout limits state t h1]
  · by_cases h2 : state.toolCallsUsed + 1 > limits.maxToolCalls
    · rw [recordToolCall_toolLimit limits state t h1 h2]
    · cases hterm : state.terminatedReason with
      | some r => rw [recordToolCall_stored limits state t r h1 h2 hterm]
      | none =>
          rw [recordToolCall_ok limits state t h1 h2 hterm] at h
          simp at h

/-- Once a termination is stored, `recordToolCall` always throws and leaves
the state unchanged. -/
theorem recordToolCall_stuck (limits : BudgetLimits) (state : BudgetState)
    (t : Int) (r : BudgetReason) (hterm : state.terminatedReason = some r) :
    (recordToolCall limits state t).1.isSome ∧
    (recordToolCall limits state t).2 = state := by
  by_cases h1 : t - state.startTime ≥ (limits.timeoutMs : Int)
  · rw [recordToolCall_timeout limits state t h1]; exact ⟨rfl, rfl⟩
  · by_cases h2 : state.toolCallsUsed + 1 > limits.maxToolCalls
    · rw [recordToolCall_toolLimit limits state t h1 h2]; exact ⟨rfl, rfl⟩
    · rw [recordToolCall_stored limits state t r h1 h2 hterm]; exact ⟨rfl, rfl⟩

/-- A passing before-call check implies no stored termination. -/
theorem preCallCheck_none_terminated (limits : BudgetLimits)
    (state : BudgetState) (t : Int)
    (h : preCallCheck limits state t = none) :
    state.terminatedReason = none := by
  unfold preCallCheck at h
  by_cases h1 : t - state.startTime ≥ (limits.timeoutMs : Int)
  · rw [if_pos h1] at h; exact absurd h (by simp)
  · rw [if_neg h1] at h
    by_cases h2 : state.stepsUsed + 1 > limits.maxSteps
    · rw [if_pos h2] at h; exact absurd h (by simp)
    · rw [if_neg h2] at h
      cases hterm : state.terminatedReason with
      | some r => rw [hterm] at h; exact absurd h (by simp)
      | none => rfl

theorem preCallCheck_timeout (limits : BudgetLimits) (state : BudgetState)
    (t : Int) (h : t - state.startTime ≥ (limits.timeoutMs : Int)) :
    preCallCheck limits state t =
      some { reason := .TIMEOUT
             snapshot := some (createSnapshot limits state t none)
             executionId := limits.executionId } := by
  simp only [preCallCheck, if_pos h]

theorem preCallCheck_stepLimit (limits : BudgetLimits) (state : BudgetState)
    (t : Int) (h : ¬ t - state.startTime ≥ (limits.timeoutMs : Int))
    (hstep : state.stepsUsed + 1 > limits.maxSteps) :
    preCallCheck limits state t =
      some { reason := .STEP_LIMIT
             snapshot := some (createSnapshot limits state t none)
             executionId := limits.executionId } := by
  simp only [preCallCheck, if_neg h, if_pos hstep]

theorem preCallCheck_stored (limits : BudgetLimits) (state : BudgetState)
    (t : Int) (r : BudgetReason)
    (h : ¬ t - state.startTime ≥ (limits.timeoutMs : Int))
    (hstep : ¬ state.stepsUsed + 1 > limits.maxSteps)
    (hterm : state.terminatedReason = some r) :
    preCallCheck limits state t =
      some { reason := r
             snapshot := state.terminatedSnapshot
             executionId := limits.executionId } := by
  simp only [preCallCheck, if_neg h, if_neg hstep, hterm]

theorem preCallCheck_ok (limits : BudgetLimits) (state : BudgetState)
    (t : Int) (h : ¬ t - state.startTime ≥ (limits.timeoutMs : Int))
    (hstep : ¬ state.stepsUsed + 1 > limits.maxSteps)
    (hterm : state.terminatedReason = none) :
    preCallCheck limits state t = none := by
  simp only [preCallCheck, if_neg h, if_neg hstep, hterm]

/-- A guarded call that fails its before-call checks raises that error and
leaves the state unchanged. -/
theorem guardedResponse_precheck {ε α : Type} (limits : BudgetLimits)
    (state : BudgetState) (t : Int) (params : CallParams)
    (fn : CallParams → Except ε (Response α)) (e : BudgetError)
    (h : preCallCheck limits state t = some e) :
    guardedResponse limits state t params fn = (.error (.budget e), state) := by
  unfold guardedResponse
  rw [h]

/-- Once a termination is stored, every guarded call raises at the
before-call checks and leaves the state unchanged. -/
theorem guardedResponse_stuck {ε α : Type} (limits : BudgetLimits)
    (state : BudgetState) (t : Int) (params : CallParams)
    (fn : CallParams → Except ε (Response α)) (r : BudgetReason)
    (hterm : state.terminatedReason = some r) :
    (∃ e, guardedResponse limits state t params fn =
      (.error (.budget e), state)) := by
  cases h : preCallCheck limits state t with
  | some e => exact ⟨e, guardedResponse_precheck limits state t params fn e h⟩
  | none =>
      rw [preCallCheck_none_terminated limits state t h] at hterm
      exact absurd hterm (by simp)

/-- Once a termination is stored, any single guarded operation leaves the
state unchanged. -/
theorem applyOp_stuck {ε α : Type} (limits : BudgetLimits)
    (state : BudgetState) (r : BudgetReason)
    (hterm : state.terminatedReason = some r) (op : GuardOp ε α) :
    applyOp limits state op = state := by
  cases op with
  | tool t => exact (recordToolCall_stuck limits state t r hterm).2
  | call t params fn =>
      obtain ⟨e, he⟩ := guardedResponse_stuck limits state t params fn r hterm
      show (guardedResponse limits state t params fn).2 = state
      rw [he]

/-- Once a termination is stored, no sequence of guarded operations changes
the state. -/
theorem runOps_stuck {ε α : Type} (limits : BudgetLimits)
    (state : BudgetState) (r : BudgetReason)
    (hterm : state.terminatedReason = some r) (ops : List (GuardOp ε α)) :
    runOps limits state ops = state := by
  induction ops with
  | nil => rfl
  | cons op ops ih =>
      show runOps limits (applyOp limits state op) ops = state
      rw [applyOp_stuck limits state r hterm op]
      exact ih

theorem settleCall_unavailable_failClosed {α : Type} (limits : BudgetLimits)
    (state : BudgetState) (t : Int) (resp : Response α)
    (hu : extractUsage resp.usage = none)
    (hmode : limits.tokenAccountingMode = .failClosed) :
    settleCall limits state t resp =
      (.error { reason := .USAGE_UNAVAILABLE
                snapshot := some (createSnapshot limits state t none)
                executionId := limits.executionId }, state) := by
  unfold settleCall
  rw [hu, hmode]

theorem settleCall_unavailable_failOpen {α : Type} (limits : BudgetLimits)
    (state : BudgetState) (t : Int) (resp : Response α)
    (hu : extractUsage resp.usage = none)
    (hmode : limits.tokenAccountingMode = .failOpen) :
    settleCall limits state t resp =
      (.ok resp, { state with tokenAccountingReliable := false }) := by
  unfold settleCall
  rw [hu, hmode]

theorem settleCall_usage_over {α : Type} (limits : BudgetLimits)
    (state : BudgetState) (t : Int) (resp : Response α) (u : Nat)
    (hu : extractUsage resp.usage = some u)
    (hrel : state.tokenAccountingReliable = true)
    (hover : state.tokensUsed + u > limits.maxTokens) :
    settleCall limits state t resp =
      (.ok resp,
       { state with
           tokensUsed := state.tokensUsed + u
           terminatedReason := some .TOKEN_LIMIT
           terminatedSnapshot := some (createSnapshot limits
             { state with tokensUsed := state.tokensUsed + u } t
             (some (state.tokensUsed + u - limits.maxTokens))) }) := by
  simp only [settleCall, hu]
  rw [if_pos ⟨hrel, hover⟩]

theorem settleCall_usage_within {α : Type} (limits : BudgetLimits)
    (state : BudgetState) (t : Int) (resp : Response α) (u : Nat)
    (hu : extractUsage resp.usage = some u)
    (h : ¬ (state.tokenAccountingReliable = true ∧
        state.tokensUsed + u > limits.maxTokens)) :
    settleCall limits state t resp =
      (.ok resp, { state with tokensUsed := state.tokensUsed + u }) := by
  simp only [settleCall, hu]
  rw [if_neg h]

/-- The guarded call, after its checks pass, applies the call function to
the clamped parameters and settles from the incremented state. -/
theorem guardedResponse_ok {ε α : Type} (limits : BudgetLimits)
    (state : BudgetState) (t : Int) (params : CallParams)
    (fn : CallParams → Except ε (Response α))
    (hpre : preCallCheck limits state t = none) :
    guardedResponse limits state t params fn =
      (match fn (clampParams limits params) with
       | .error err =>
          (.error (.external err),
           { state with stepsUsed := state.stepsUsed + 1 })
       | .ok resp =>
          match settleCall limits { state with stepsUsed := state.stepsUsed + 1 }
              t resp with
          | (.error e, s2) => (.error (.budget e), s2)
          | (.ok r, s2) => (.ok r, s2)) := by
  unfold guardedResponse
  rw [hpre]

/-- The guarded call propagates the own error of the call function unchanged,
with the step consumed and nothing else touched. -/
theorem guardedResponse_fnError {ε α : Type} (limits : BudgetLimits)
    (state : BudgetState) (t : Int) (params : CallParams)
    (fn : CallParams → Except ε (Response α)) (err : ε)
    (hpre : preCallCheck limits state t = none)
    (hfn : fn (clampParams limits params) = .error err) :
    guardedResponse limits state t params fn =
      (.error (.external err),
       { state with stepsUsed := state.stepsUsed + 1 }) := by
  unfold guardedResponse
  rw [hpre, hfn]

/-- The guarded call, when its checks pass and the call function succeeds,
is the settlement of the response from the incremented state. -/
theorem guardedResponse_fnOk {ε α : Type} (limits : BudgetLimits)
    (state : BudgetState) (t : Int) (params : CallParams)
    (fn : CallParams → Except ε (Response α)) (resp : Response α)
    (hpre : preCallCheck limits state t = none)
    (hfn : fn (clampParams limits params) = .ok resp) :
    guardedResponse limits state t params fn =
      (match settleCall limits { state with stepsUsed := state.stepsUsed + 1 }
          t resp with
       | (.error e, s2) => (.error (.budget e), s2)
       | (.ok r, s2) => (.ok r, s2)) := by
  unfold guardedResponse
  rw [hpre, hfn]

/-- `settleCall` never sets `tokenAccountingReliable` back to true, and when
the accounting is already unreliable it never stores a termination. -/
theorem settleCall_preserves_unreliable {α : Type} (limits : BudgetLimits)
    (state : BudgetState) (t : Int) (resp : Response α)
    (hrel : state.tokenAccountingReliable = false) :
    (settleCall limits state t resp).2.tokenAccountingReliable = false ∧
    (settleCall limits state t resp).2.terminatedReason =
      state.terminatedReason := by
  cases hu : extractUsage resp.usage with
  | none =>
      cases hmode : limits.tokenAccountingMode with
      | failClosed =>
          rw [settleCall_unavailable_failClosed limits state t resp hu hmode]
          exact ⟨hrel, rfl⟩
      | failOpen =>
          rw [settleCall_unavailable_failOpen limits state t resp hu hmode]
          exact ⟨rfl, rfl⟩
  | some u =>
      rw [settleCall_usage_within limits state t resp u hu
        (fun hc => Bool.false_ne_true (hrel ▸ hc.1))]
      exact ⟨hrel, rfl⟩

/-- A single guarded operation preserves unreliable accounting and the
absence of a stored termination. -/
theorem applyOp_preserves_unreliable {ε α : Type} (limits : BudgetLimits)
    (state : BudgetState)
    (hrel : state.tokenAccountingReliable = false)
    (hterm : state.terminatedReason = none) (op : GuardOp ε α) :
    (applyOp limits state op).tokenAccountingReliable = false ∧
    (applyOp limits state op).terminatedReason = none := by
  cases op with
  | tool t =>
      show (recordToolCall limits state t).2.tokenAccountingReliable = false ∧
        (recordToolCall limits state t).2.terminatedReason = none
      by_cases h1 : t - state.startTime ≥ (limits.timeoutMs : Int)
      · rw [recordToolCall_timeout limits state t h1]; exact ⟨hrel, hterm⟩
      · by_cases h2 : state.toolCallsUsed + 1 > limits.maxToolCalls
        · rw [recordToolCall_toolLimit limits state t h1 h2]
          exact ⟨hrel, hterm⟩
        · rw [recordToolCall_ok limits state t h1 h2 hterm]
          exact ⟨hrel, hterm⟩
  | call t params fn =>
      show (guardedResponse limits state t params fn).2.tokenAccountingReliable
          = false ∧
        (guardedResponse limits state t params fn).2.terminatedReason = none
      cases hpre : preCallCheck limits state t with
      | some e =>
          rw [guardedResponse_precheck limits state t params fn e hpre]
          exact ⟨hrel, hterm⟩
      | none =>
          cases hfn : fn (clampParams limits params) with
          | error err =>
              rw [guardedResponse_fnError limits state t params fn err hpre hfn]
              exact ⟨hrel, hterm⟩
          | ok resp =>
              rw [guardedResponse_fnOk limits state t params fn resp hpre hfn]
              have hs := settleCall_preserves_unreliable limits
                { state with stepsUsed := state.stepsUsed + 1 } t resp hrel
              rcases hsc : settleCall limits
                  { state with stepsUsed := state.stepsUsed + 1 } t resp with
                ⟨res, s2⟩
              rw [hsc] at hs
              cases res with
              | error e => exact ⟨hs.1, hs.2.trans hterm⟩
              | ok r => exact ⟨hs.1, hs.2.trans hterm⟩

/-- No sequence of guarded operations restores reliable accounting or
stores a termination once accounting is unreliable. -/
theorem runOps_preserves_unreliable {ε α : Type} (limits : BudgetLimits)
    (state : BudgetState)
    (hrel : state.tokenAccountingReliable = false)
    (hterm : state.terminatedReason = none) (ops : List (GuardOp ε α)) :
    (runOps limits state ops).tokenAccountingReliable = false ∧
    (runOps limits state ops).terminatedReason = none := by
  induction ops generalizing state with
  | nil => exact ⟨hrel, hterm⟩
  | cons op ops ih =>
      have h := applyOp_preserves_unreliable limits state hrel hterm op
      exact ih (applyOp limits state op) h.1 h.2

/-- With no stored termination, an error thrown by `recordToolCall` is a
fresh TIMEOUT or TOOL_LIMIT, never TOKEN_LIMIT. -/
theorem recordToolCall_reason_of_unterminated (limits : BudgetLimits)
    (state : BudgetState) (t : Int) (e : BudgetError)
    (hterm : state.terminatedReason = none)
    (h : (recordToolCall limits state t).1 = some e) :
    e.reason = .TIMEOUT ∨ e.reason = .TOOL_LIMIT := by
  by_cases h1 : t - state.startTime ≥ (limits.timeoutMs : Int)
  · rw [recordToolCall_timeout limits state t h1] at h
    cases h
    exact Or.inl rfl
  · by_cases h2 : state.toolCallsUsed + 1 > limits.maxToolCalls
    · rw [recordToolCall_toolLimit limits state t h1 h2] at h
      cases h
      exact Or.inr rfl
    · rw [recordToolCall_ok limits state t h1 h2 hterm] at h
      cases h

/-- With no stored termination, an error returned by the before-call checks
is a fresh TIMEOUT or STEP_LIMIT. -/
theorem preCallCheck_reason_of_unterminated (limits : BudgetLimits)
    (state : BudgetState) (t : Int) (e : BudgetError)
    (hterm : state.terminatedReason = none)
    (h : preCallCheck limits state t = some e) :
    e.reason = .TIMEOUT ∨ e.reason = .STEP_LIMIT := by
  by_cases h1 : t - state.startTime ≥ (limits.timeoutMs : Int)
  · rw [preCallCheck_timeout limits state t h1] at h
    cases h
    exact Or.inl rfl
  · by_cases h2 : state.stepsUsed + 1 > limits.maxSteps
    · rw [preCallCheck_stepLimit limits state t h1 h2] at h
      cases h
      exact Or.inr rfl
    · rw [preCallCheck_ok limits state t h1 h2 hterm] at h
      cases h

/-- The only error `settleCall` itself raises is USAGE_UNAVAILABLE. -/
theorem settleCall_error_reason {α : Type} (limits : BudgetLimits)
    (state : BudgetState) (t : Int) (resp : Response α) (e : BudgetError)
    (h : (settleCall limits state t resp).1 = .error e) :
    e.reason = .USAGE_UNAVAILABLE := by
  cases hu : extractUsage resp.usage with
  | none =>
      cases hmode : limits.tokenAccountingMode with
      | failClosed =>
          rw [settleCall_unavailable_failClosed limits state t resp hu hmode]
            at h
          cases h
          rfl
      | failOpen =>
          rw [settleCall_unavailable_failOpen limits state t resp hu hmode]
            at h
          cases h
  | some u =>
      by_cases hc : state.tokenAccountingReliable = true ∧
          state.tokensUsed + u > limits.maxTokens
      · rw [settleCall_usage_over limits state t resp u hu hc.1 hc.2] at h
        cases h
      · rw [settleCall_usage_within limits state t resp u hu hc] at h
        cases h

/-- With no stored termination, a budget error raised by a guarded call is
never TOKEN_LIMIT. -/
theorem guardedResponse_reason_of_unterminated {ε α : Type}
    (limits : BudgetLimits) (state : BudgetState) (t : Int)
    (params : CallParams) (fn : CallParams → Except ε (Response α))
    (e : BudgetError)
    (hterm : state.terminatedReason = none)
    (h : (guardedResponse limits state t params fn).1 = .error (.budget e)) :
    e.reason = .TIMEOUT ∨ e.reason = .STEP_LIMIT ∨
      e.reason = .USAGE_UNAVAILABLE := by
  cases hpre : preCallCheck limits state t with
  | some e0 =>
      rw [guardedResponse_precheck limits state t params fn e0 hpre] at h
      simp only [Except.error.injEq, GuardFailure.budget.injEq] at h
      subst h
      rcases preCallCheck_reason_of_unterminated limits state t e0 hterm hpre
        with h' | h'
      · exact Or.inl h'
      · exact Or.inr (Or.inl h')
  | none =>
      cases hfn : fn (clampParams limits params) with
      | error err =>
          rw [guardedResponse_fnError limits state t params fn err hpre hfn]
            at h
          simp at h
      | ok resp =>
          rw [guardedResponse_fnOk limits state t params fn resp hpre hfn] at h
          rcases hsc : settleCall limits
              { state with stepsUsed := state.stepsUsed + 1 } t resp with
            ⟨res, s2⟩
          rw [hsc] at h
          cases res with
          | error e0 =>
              simp only [Except.error.injEq, GuardFailure.budget.injEq] at h
              subst h
              have := settleCall_error_reason limits
                { state with stepsUsed := state.stepsUsed + 1 } t resp e0
                (by rw [hsc])
              exact Or.inr (Or.inr this)
          | ok r => simp at h

/-- A run of accepted tool recordings: with no stored termination, no
timeout on any recording, and room in the tool budget, every recording is
accepted and only the tool counter changes, by one per recording. -/
theorem recordSeq_ok (limits : BudgetLimits) (state : BudgetState)
    (times : List Int)
    (hterm : state.terminatedReason = none)
    (hlen : state.toolCallsUsed + times.length ≤ limits.maxToolCalls)
    (htimes : ∀ t ∈ times, t - state.startTime < (limits.timeoutMs : Int)) :
    recordSeq limits state times =
      (none, { state with
                 toolCallsUsed := state.toolCallsUsed + times.length }) := by
  induction times generalizing state with
  | nil => rfl
  | cons t ts ih =>
      have h1 : ¬ t - state.startTime ≥ (limits.timeoutMs : Int) :=
        not_le.mpr (htimes t (List.mem_cons_self t ts))
      have h2 : ¬ state.toolCallsUsed + 1 > limits.maxToolCalls := by
        simp only [List.length_cons] at hlen
        omega
      have step := ih { state with toolCallsUsed := state.toolCallsUsed + 1 }
        hterm
        (by simp only [List.length_cons] at hlen ⊢; omega)
        (fun t' ht' => htimes t' (List.mem_cons_of_mem t ht'))
      show (match recordToolCall limits state t with
            | (some e, s') => (some e, s')
            | (none, s') => recordSeq limits s' ts) = _
      rw [recordToolCall_ok limits state t h1 h2 hterm]
      show recordSeq limits
          { state with toolCallsUsed := state.toolCallsUsed + 1 } ts =
        (none, { state with
                   toolCallsUsed := state.toolCallsUsed + (t :: ts).length })
      rw [step]
      simp only [Prod.mk.injEq, BudgetState.mk.injEq, List.length_cons,
        true_and, and_true]
      omega

/-! ### Claim theorems -/

/-- Claim C2: once the termination record is set it is never cleared — no
sequence of guarded operations changes the state at all — and every
subsequent guarded operation that reaches the stored-termination check
(no timeout, fresh tool or step budget not exceeded) fails with the stored
reason and the exact stored snapshot, not a recomputed one, identically
every time, for the life of the instance. -/
theorem C2_sticky_termination {ε α : Type} (limits : BudgetLimits)
    (state : BudgetState) (r : BudgetReason)
    (hterm : state.terminatedReason = some r) :
    (∀ ops : List (GuardOp ε α), runOps limits state ops = state) ∧
    (∀ t : Int, t - state.startTime < (limits.timeoutMs : Int) →
      state.toolCallsUsed + 1 ≤ limits.maxToolCalls →
      recordToolCall limits state t =
        (some { reason := r
                snapshot := state.terminatedSnapshot
                executionId := limits.executionId }, state)) ∧
    (∀ (t : Int) (params : CallParams)
        (fn : CallParams → Except ε (Response α)),
      t - state.startTime < (limits.timeoutMs : Int) →
      state.stepsUsed + 1 ≤ limits.maxSteps →
      guardedResponse limits state t params fn =
        (.error (.budget { reason := r
                           snapshot := state.terminatedSnapshot
                           executionId := limits.executionId }), state)) :=
  ⟨fun ops => runOps_stuck limits state r hterm ops,
   fun t hnt htool =>
     recordToolCall_stored limits state t r (not_le.mpr hnt)
       (not_lt.mpr htool) hterm,
   fun t params fn hnt hstep =>
     guardedResponse_precheck limits state t params fn _
       (preCallCheck_stored limits state t r (not_le.mpr hnt)
         (not_lt.mpr hstep) hterm)⟩

theorem C2_witness :
    runOps exLimits exTerm
        [GuardOp.tool 1, GuardOp.call 2 {} exFn600] = exTerm ∧
    recordToolCall exLimits exTerm 3 =
      (some { reason := .TOKEN_LIMIT
              snapshot := exTerm.terminatedSnapshot
              executionId := exLimits.executionId }, exTerm) ∧
    guardedResponse exLimits exTerm 4 {} exFn600 =
      (.error (.budget { reason := .TOKEN_LIMIT
                         snapshot := exTerm.terminatedSnapshot
                         executionId := exLimits.executionId }), exTerm) := by
  have h := C2_sticky_termination (ε := Unit) (α := Unit)
    exLimits exTerm .TOKEN_LIMIT rfl
  exact ⟨h.1 [GuardOp.tool 1, GuardOp.call 2 {} exFn600],
         h.2.1 3 (by decide) (by decide),
         h.2.2 4 {} exFn600 (by decide) (by decide)⟩

/-- Claim C3: any guarded operation entered when elapsed time has reached
`timeoutMs` fails with TIMEOUT, whatever the rest of the state — remaining
step, tool or token budget, or a stored termination — so TIMEOUT outranks
every other reason when conditions hold simultaneously. -/
theorem C3_timeout_outranks_all {ε α : Type} (limits : BudgetLimits)
    (state : BudgetState) (t : Int)
    (h : t - state.startTime ≥ (limits.timeoutMs : Int)) :
    recordToolCall limits state t =
      (some { reason := .TIMEOUT
              snapshot := some (createSnapshot limits state t none)
              executionId := limits.executionId }, state) ∧
    ∀ (params : CallParams) (fn : CallParams → Except ε (Response α)),
      guardedResponse limits state t params fn =
        (.error (.budget { reason := .TIMEOUT
                           snapshot := some (createSnapshot limits state t none)
                           executionId := limits.executionId }), state) :=
  ⟨recordToolCall_timeout limits state t h,
   fun params fn => guardedResponse_precheck limits state t params fn _
     (preCallCheck_timeout limits state t h)⟩

theorem C3_witness :
    recordToolCall cl4 st4 99999 =
      (some { reason := .TIMEOUT
              snapshot := some (createSnapshot cl4 st4 99999 none)
              executionId := cl4.executionId }, st4) ∧
    guardedResponse cl4 st4 99999 {} ceFn100 =
      (.error (.budget { reason := .TIMEOUT
                         snapshot := some (createSnapshot cl4 st4 99999 none)
                         executionId := cl4.executionId }), st4) := by
  have h := C3_timeout_outranks_all (ε := Unit) (α := Unit) cl4 st4 99999
    (by decide)
  exact ⟨h.1, h.2 {} ceFn100⟩

/-- Claim C4: a stored TOKEN_LIMIT termination does not outrank a freshly
exceeded proactive limit: with no timeout, a guarded call whose step budget
is exhausted fails with a fresh STEP_LIMIT, and a tool recording whose tool
budget is exhausted fails with a fresh TOOL_LIMIT, because those checks run
before the stored-termination check. -/
theorem C4_fresh_limit_preempts_stored {ε α : Type} (limits : BudgetLimits)
    (state : BudgetState) (t : Int)
    (_hterm : state.terminatedReason = some .TOKEN_LIMIT)
    (hnt : t - state.startTime < (limits.timeoutMs : Int)) :
    (state.stepsUsed + 1 > limits.maxSteps →
      ∀ (params : CallParams) (fn : CallParams → Except ε (Response α)),
        guardedResponse limits state t params fn =
          (.error (.budget { reason := .STEP_LIMIT
                             snapshot := some (createSnapshot limits state t none)
                             executionId := limits.executionId }), state)) ∧
    (state.toolCallsUsed + 1 > limits.maxToolCalls →
      recordToolCall limits state t =
        (some { reason := .TOOL_LIMIT
                snapshot := some (createSnapshot limits state t none)
                executionId := limits.executionId }, state)) :=
  ⟨fun hstep params fn => guardedResponse_precheck limits state t params fn _
     (preCallCheck_stepLimit limits state t (not_le.mpr hnt) hstep),
   fun htool =>
     recordToolCall_toolLimit limits state t (not_le.mpr hnt) htool⟩

theorem C4_witness :
    ceTerm.terminatedReason = some .TOKEN_LIMIT ∧
    guardedResponse ceLimits ceTerm 5 {} ceFn100 =
      (.error (.budget { reason := .STEP_LIMIT
                         snapshot := some (createSnapshot ceLimits ceTerm 5 none)
                         executionId := ceLimits.executionId }), ceTerm) ∧
    st4.terminatedReason = some .TOKEN_LIMIT ∧
    recordToolCall cl4 st4 6 =
      (some { reason := .TOOL_LIMIT
              snapshot := some (createSnapshot cl4 st4 6 none)
              executionId := cl4.executionId }, st4) := by
  have h1 := C4_fresh_limit_preempts_stored (ε := Unit) (α := Unit)
    ceLimits ceTerm 5 rfl (by decide)
  have h2 := C4_fresh_limit_preempts_stored (ε := Unit) (α := Unit)
    cl4 st4 6 rfl (by decide)
  exact ⟨rfl, h1.1 (by decide) {} ceFn100, rfl, h2.2 (by decide)⟩

/-- Claim C8: when the call function itself raises, the guarded call
propagates that error unchanged and unwrapped as an external failure — not
a budget error, with no snapshot attached — while the step stays consumed
and no other budget state field changes: no token accounting occurs. -/
theorem C8_external_error_propagates {ε α : Type} (limits : BudgetLimits)
    (state : BudgetState) (t : Int) (params : CallParams)
    (fn : CallParams → Except ε (Response α)) (err : ε)
    (hpre : preCallCheck limits state t = none)
    (hfn : fn (clampParams limits params) = .error err) :
    guardedResponse limits state t params fn =
      (.error (.external err),
       { state with stepsUsed := state.stepsUsed + 1 }) ∧
    ({ state with stepsUsed := state.stepsUsed + 1 } :
        BudgetState).tokensUsed = state.tokensUsed ∧
    ({ state with stepsUsed := state.stepsUsed + 1 } :
        BudgetState).terminatedReason = state.terminatedReason ∧
    ({ state with stepsUsed := state.stepsUsed + 1 } :
        BudgetState).tokenAccountingReliable =
      state.tokenAccountingReliable :=
  ⟨guardedResponse_fnError limits state t params fn err hpre hfn,
   rfl, rfl, rfl⟩

theorem C8_witness :
    guardedResponse exLimits (initState 0) 0 {} fnThrow =
      (.error (.external 7),
       { initState 0 with stepsUsed := (initState 0).stepsUsed + 1 }) :=
  (C8_external_error_propagates exLimits (initState 0) 0 {} fnThrow 7
    rfl rfl).1

/-- Claim C9: a guarded call that passes its pre-call checks invokes the
call function on exactly the clamped parameters, whose output-size field is
the minimum of the caller-requested value and `maxOutputTokens` when the
caller supplied a value, and `maxOutputTokens` when the caller supplied
none. -/
theorem C9_output_clamp {ε α : Type} (limits : BudgetLimits)
    (state : BudgetState) (t : Int) (params : CallParams)
    (fn : CallParams → Except ε (Response α))
    (hpre : preCallCheck limits state t = none) :
    guardedResponse limits state t params fn =
      (match fn (clampParams limits params) with
       | .error err =>
          (.error (.external err),
           { state with stepsUsed := state.stepsUsed + 1 })
       | .ok resp =>
          match settleCall limits { state with stepsUsed := state.stepsUsed + 1 }
              t resp with
          | (.error e, s2) => (.error (.budget e), s2)
          | (.ok r, s2) => (.ok r, s2)) ∧
    (∀ v : Nat, params.max_output_tokens = some v →
      (clampParams limits params).max_output_tokens =
        some (min v limits.maxOutputTokens)) ∧
    (params.max_output_tokens = none →
      (clampParams limits params).max_output_tokens =
        some limits.maxOutputTokens) :=
  ⟨guardedResponse_ok limits state t params fn hpre,
   fun v hv => by simp only [clampParams, hv],
   fun hv => by simp only [clampParams, hv]⟩

theorem C9_witness :
    (clampParams ocLimits
      { max_output_tokens := some 1000 }).max_output_tokens =
        some (min 1000 ocLimits.maxOutputTokens) ∧
    (clampParams ocLimits
      { max_output_tokens := some 200 }).max_output_tokens =
        some (min 200 ocLimits.maxOutputTokens) ∧
    (clampParams ocLimits ({} : CallParams)).max_output_tokens =
      some ocLimits.maxOutputTokens ∧
    (guardedResponse ocLimits (initState 0) 0
        { max_output_tokens := some 1000 } fnEcho).1 =
      .ok { payload := clampParams ocLimits { max_output_tokens := some 1000 }
            usage := some { total_tokens := some 100 } } := by
  have h := C9_output_clamp ocLimits (initState 0) 0
    { max_output_tokens := some 1000 } fnEcho rfl
  have h2 := C9_output_clamp ocLimits (initState 0) 0 ({} : CallParams)
    fnEcho rfl
  have h3 := C9_output_clamp ocLimits (initState 0) 0
    { max_output_tokens := some 200 } fnEcho rfl
  refine ⟨h.2.1 1000 rfl, h3.2.1 200 rfl, h2.2.2 rfl, ?_⟩
  rw [h.1]
  rfl

/-- Claim C10: `recordToolCall` is atomic on error: whenever it throws, the
state is exactly as before the call — no counter, termination field or
reliability flag changes — and the snapshot inside a freshly built TIMEOUT
or TOOL_LIMIT error is built from that unchanged pre-call state, so it
reports the pre-call counter values. -/
theorem C10_recordToolCall_atomic (limits : BudgetLimits)
    (state : BudgetState) (t : Int) :
    ((recordToolCall limits state t).1.isSome →
      (recordToolCall limits state t).2 = state) ∧
    (t - state.startTime ≥ (limits.timeoutMs : Int) →
      (recordToolCall limits state t).1 =
        some { reason := .TIMEOUT
               snapshot := some (createSnapshot limits state t none)
               executionId := limits.executionId }) ∧
    (¬ t - state.startTime ≥ (limits.timeoutMs : Int) →
      state.toolCallsUsed + 1 > limits.maxToolCalls →
      (recordToolCall limits state t).1 =
        some { reason := .TOOL_LIMIT
               snapshot := some (createSnapshot limits state t none)
               executionId := limits.executionId }) ∧
    (createSnapshot limits state t none).stepsUsed = state.stepsUsed ∧
    (createSnapshot limits state t none).toolCallsUsed =
      state.toolCallsUsed ∧
    (createSnapshot limits state t none).tokensUsed = state.tokensUsed :=
  ⟨recordToolCall_error_state limits state t,
   fun h => by rw [recordToolCall_timeout limits state t h],
   fun h htool => by rw [recordToolCall_toolLimit limits state t h htool],
   rfl, rfl, rfl⟩

theorem C10_witness :
    (recordToolCall tlLimits { initState 0 with toolCallsUsed := 2 } 0).1 =
      some { reason := .TOOL_LIMIT
             snapshot := some (createSnapshot tlLimits
               { initState 0 with toolCallsUsed := 2 } 0 none)
             executionId := tlLimits.executionId } ∧
    (recordToolCall tlLimits { initState 0 with toolCallsUsed := 2 } 0).2 =
      { initState 0 with toolCallsUsed := 2 } := by
  have h := C10_recordToolCall_atomic tlLimits
    { initState 0 with toolCallsUsed := 2 } 0
  have he := h.2.2.1 (by decide) (by decide)
  exact ⟨he, h.1 (by rw [he]; rfl)⟩

/-- Claim C1, amended: a guarded call whose extracted usage pushes
`tokensUsed` past `maxTokens` while accounting is reliable still returns
its result; the termination record is set to TOKEN_LIMIT with
`overshoot = tokensUsed - maxTokens` computed at that instant; and every
later guarded operation that reaches the stored-termination check — that
is, one not itself pre-empted by TIMEOUT or by a freshly exceeded
STEP_LIMIT or TOOL_LIMIT — fails with TOKEN_LIMIT carrying that fixed
overshoot, unaffected by any later activity (no sequence of operations
changes the stored record).  The original claim, which promised TOKEN_LIMIT
on the next guarded operation unconditionally, is refuted by
`C1_counterexample`. -/
theorem C1_token_crossing {ε α : Type} (limits : BudgetLimits)
    (state : BudgetState) (t : Int) (params : CallParams)
    (fn : CallParams → Except ε (Response α)) (resp : Response α) (u : Nat)
    (hpre : preCallCheck limits state t = none)
    (hfn : fn (clampParams limits params) = .ok resp)
    (hu : extractUsage resp.usage = some u)
    (hrel : state.tokenAccountingReliable = true)
    (hover : state.tokensUsed + u > limits.maxTokens) :
    guardedResponse limits state t params fn =
      (.ok resp, tokenCrossState limits state t u) ∧
    (tokenCrossSnap limits state t u).overshoot =
      some (state.tokensUsed + u - limits.maxTokens) ∧
    (∀ ops : List (GuardOp ε α),
      runOps limits (tokenCrossState limits state t u) ops =
        tokenCrossState limits state t u) ∧
    (∀ t' : Int, t' - state.startTime < (limits.timeoutMs : Int) →
      state.toolCallsUsed + 1 ≤ limits.maxToolCalls →
      recordToolCall limits (tokenCrossState limits state t u) t' =
        (some { reason := .TOKEN_LIMIT
                snapshot := some (tokenCrossSnap limits state t u)
                executionId := limits.executionId },
         tokenCrossState limits state t u)) ∧
    (∀ (t' : Int) (params' : CallParams)
        (fn' : CallParams → Except ε (Response α)),
      t' - state.startTime < (limits.timeoutMs : Int) →
      state.stepsUsed + 1 + 1 ≤ limits.maxSteps →
      guardedResponse limits (tokenCrossState limits state t u) t' params' fn' =
        (.error (.budget { reason := .TOKEN_LIMIT
                           snapshot := some (tokenCrossSnap limits state t u)
                           executionId := limits.executionId }),
         tokenCrossState limits state t u)) := by
  refine ⟨?_, rfl, ?_, ?_, ?_⟩
  · rw [guardedResponse_fnOk limits state t params fn resp hpre hfn]
    rw [settleCall_usage_over limits
      { state with stepsUsed := state.stepsUsed + 1 } t resp u hu hrel hover]
    rfl
  · exact fun ops =>
      runOps_stuck limits (tokenCrossState limits state t u) .TOKEN_LIMIT
        rfl ops
  · exact fun t' hnt htool =>
      recordToolCall_stored limits (tokenCrossState limits state t u) t'
        .TOKEN_LIMIT (not_le.mpr hnt) (not_lt.mpr htool) rfl
  · exact fun t' params' fn' hnt hstep =>
      guardedResponse_precheck limits (tokenCrossState limits state t u) t'
        params' fn' _
        (preCallCheck_stored limits (tokenCrossState limits state t u) t'
          .TOKEN_LIMIT (not_le.mpr hnt) (not_lt.mpr hstep) rfl)

theorem C1_witness :
    guardedResponse exLimits (initState 0) 0 {} exFn600 =
      (.ok { payload := (), usage := some { total_tokens := some 600 } },
       tokenCrossState exLimits (initState 0) 0 600) ∧
    (tokenCrossSnap exLimits (initState 0) 0 600).overshoot = some 100 ∧
    runOps exLimits (tokenCrossState exLimits (initState 0) 0 600)
      ([GuardOp.tool 1] : List (GuardOp Unit Unit)) =
      tokenCrossState exLimits (initState 0) 0 600 ∧
    recordToolCall exLimits (tokenCrossState exLimits (initState 0) 0 600) 2 =
      (some { reason := .TOKEN_LIMIT
              snapshot := some (tokenCrossSnap exLimits (initState 0) 0 600)
              executionId := exLimits.executionId },
       tokenCrossState exLimits (initState 0) 0 600) := by
  have h := C1_token_crossing (ε := Unit) (α := Unit) exLimits (initState 0) 0
    {} exFn600 { payload := (), usage := some { total_tokens := some 600 } }
    600 rfl rfl rfl rfl (by decide)
  exact ⟨h.1, h.2.1, h.2.2.1 [GuardOp.tool 1],
         h.2.2.2.1 2 (by decide) (by decide)⟩

/-- Claim C1, counterexample to the claim as frozen: under `ceLimits`
(one allowed step, token budget 50) the first guarded call extracts 600
tokens with reliable accounting, exceeds the budget, stores the TOKEN_LIMIT
termination — yet the next guarded operation fails with a fresh STEP_LIMIT,
not with TOKEN_LIMIT, because the step check runs before the stored
termination check.  This refutes the unconditional clause of C1 that the
next guarded operation fails with TOKEN_LIMIT. -/
theorem C1_counterexample :
    (guardedResponse ceLimits (initState 0) 0 {} ceFn100).1 =
      .ok { payload := (), usage := some { total_tokens := some 100 } } ∧
    ceTerm.terminatedReason = some .TOKEN_LIMIT ∧
    ceTerm.tokenAccountingReliable = true ∧
    (guardedResponse ceLimits ceTerm 0 {} ceFn100).1 =
      .error (.budget { reason := .STEP_LIMIT
                        snapshot := some (createSnapshot ceLimits ceTerm 0 none)
                        executionId := none }) ∧
    BudgetReason.STEP_LIMIT ≠ BudgetReason.TOKEN_LIMIT :=
  ⟨rfl, rfl, rfl, rfl, by decide⟩

/-- Claim C5: usage extraction is all-or-nothing — a direct total-token
count wins if present, otherwise the sum of prompt and completion counts is
used only when both are present, and a result carrying exactly one of the
two partial fields (or no usage at all) counts as unavailable; in
fail-closed mode an unavailable usage makes the guarded call raise
USAGE_UNAVAILABLE and the result of the call function is never returned to
the caller. -/
theorem C5_usage_all_or_nothing :
    (∀ (u : Usage) (tot : Nat), u.total_tokens = some tot →
      extractUsage (some u) = some tot) ∧
    (∀ (u : Usage) (p c : Nat), u.total_tokens = none →
      u.prompt_tokens = some p → u.completion_tokens = some c →
      extractUsage (some u) = some (p + c)) ∧
    (∀ u : Usage, u.total_tokens = none →
      u.prompt_tokens = none ∨ u.completion_tokens = none →
      extractUsage (some u) = none) ∧
    extractUsage none = none ∧
    (∀ {ε α : Type} (limits : BudgetLimits) (state : BudgetState) (t : Int)
        (params : CallParams) (fn : CallParams → Except ε (Response α))
        (resp : Response α),
      limits.tokenAccountingMode = .failClosed →
      preCallCheck limits state t = none →
      fn (clampParams limits params) = .ok resp →
      extractUsage resp.usage = none →
      guardedResponse limits state t params fn =
        (.error (.budget
           { reason := .USAGE_UNAVAILABLE
             snapshot := some (createSnapshot limits
               { state with stepsUsed := state.stepsUsed + 1 } t none)
             executionId := limits.executionId }),
         { state with stepsUsed := state.stepsUsed + 1 })) := by
  refine ⟨?_, ?_, ?_, rfl, ?_⟩
  · intro u tot h
    simp only [extractUsage, h]
  · intro u p c h1 h2 h3
    simp only [extractUsage, h1, h2, h3]
  · intro u htot hdisj
    rcases hdisj with h | h
    · simp only [extractUsage, htot, h]
    · cases hp : u.prompt_tokens with
      | none => simp only [extractUsage, htot, hp]
      | some p => simp only [extractUsage, htot, hp, h]
  · intro ε α limits state t params fn resp hmode hpre hfn hu
    rw [guardedResponse_fnOk limits state t params fn resp hpre hfn]
    rw [settleCall_unavailable_failClosed limits
      { state with stepsUsed := state.stepsUsed + 1 } t resp hu hmode]

theorem C5_witness :
    extractUsage (some { total_tokens := some 600 }) = some 600 ∧
    extractUsage (some { prompt_tokens := some 300,
                         completion_tokens := some 350 }) = some (300 + 350) ∧
    extractUsage (some { prompt_tokens := some 100 }) = none ∧
    guardedResponse fcLimits (initState 0) 0 {} fnPromptOnly =
      (.error (.budget
         { reason := .USAGE_UNAVAILABLE
           snapshot := some (createSnapshot fcLimits
             { initState 0 with
                 stepsUsed := (initState 0).stepsUsed + 1 } 0 none)
           executionId := fcLimits.executionId }),
       { initState 0 with stepsUsed := (initState 0).stepsUsed + 1 }) := by
  have h := C5_usage_all_or_nothing
  exact ⟨h.1 { total_tokens := some 600 } 600 rfl,
         h.2.1 { prompt_tokens := some 300, completion_tokens := some 350 }
           300 350 rfl rfl rfl,
         h.2.2.1 { prompt_tokens := some 100 } rfl (Or.inr rfl),
         h.2.2.2.2 fcLimits (initState 0) 0 {} fnPromptOnly
           { payload := (), usage := some { prompt_tokens := some 100 } }
           rfl rfl rfl rfl⟩

/-- Claim C7, amended: starting from a fresh budget, every sequence of
N ≤ maxToolCalls tool recordings with no timeout is accepted in full, each
recording incrementing `toolCallsUsed` by exactly one (every prefix of
length k ends with `toolCallsUsed = k`); and once N = maxToolCalls
recordings have been accepted, the next recording fails with TOOL_LIMIT
and an error snapshot reporting `toolCallsUsed = maxToolCalls`.  The
original claim, which asserted that the (N+1)-th recording fails for every
N ≤ maxToolCalls, is refuted by `C7_counterexample` for N strictly below
the limit. -/
theorem C7_tool_budget (limits : BudgetLimits) (t0 : Int)
    (times : List Int)
    (hlen : times.length ≤ limits.maxToolCalls)
    (htimes : ∀ t ∈ times, t - t0 < (limits.timeoutMs : Int)) :
    (∀ k : Nat, k ≤ times.length →
      recordSeq limits (initState t0) (times.take k) =
        (none, { initState t0 with toolCallsUsed := k })) ∧
    recordSeq limits (initState t0) times =
      (none, { initState t0 with toolCallsUsed := times.length }) ∧
    (times.length = limits.maxToolCalls →
      ∀ t' : Int, t' - t0 < (limits.timeoutMs : Int) →
        recordToolCall limits
            { initState t0 with toolCallsUsed := limits.maxToolCalls } t' =
          (some { reason := .TOOL_LIMIT
                  snapshot := some (createSnapshot limits
                    { initState t0 with
                        toolCallsUsed := limits.maxToolCalls } t' none)
                  executionId := limits.executionId },
           { initState t0 with toolCallsUsed := limits.maxToolCalls }) ∧
        (createSnapshot limits
          { initState t0 with toolCallsUsed := limits.maxToolCalls }
          t' none).toolCallsUsed = limits.maxToolCalls) := by
  have hpref : ∀ k : Nat, k ≤ times.length →
      recordSeq limits (initState t0) (times.take k) =
        (none, { initState t0 with toolCallsUsed := k }) := by
    intro k hk
    have hlt : (times.take k).length = k := by
      rw [List.length_take]
      omega
    rw [recordSeq_ok limits (initState t0) (times.take k) rfl
      (by rw [hlt]; show 0 + k ≤ limits.maxToolCalls; omega)
      (fun t ht => htimes t (List.mem_of_mem_take ht))]
    rw [hlt]
    show (none, { initState t0 with toolCallsUsed := 0 + k }) = _
    rw [Nat.zero_add]
  refine ⟨hpref, ?_, ?_⟩
  · have h := hpref times.length le_rfl
    rwa [List.take_length] at h
  · intro hN t' ht'
    constructor
    · exact recordToolCall_toolLimit limits
        { initState t0 with toolCallsUsed := limits.maxToolCalls } t'
        (not_le.mpr ht')
        (by show limits.maxToolCalls + 1 > limits.maxToolCalls; omega)
    · rfl

theorem C7_witness :
    recordSeq tlLimits (initState 0) [1, 2] =
      (none, { initState 0 with toolCallsUsed := 2 }) ∧
    recordToolCall tlLimits { initState 0 with toolCallsUsed := 2 } 3 =
      (some { reason := .TOOL_LIMIT
              snapshot := some (createSnapshot tlLimits
                { initState 0 with toolCallsUsed := 2 } 3 none)
              executionId := tlLimits.executionId },
       { initState 0 with toolCallsUsed := 2 }) := by
  have h := C7_tool_budget tlLimits 0 [1, 2] (by decide) (by decide)
  exact ⟨h.2.1, (h.2.2 rfl 3 (by decide)).1⟩

/-- Claim C7, counterexample to the claim as frozen: with
`maxToolCalls = 2`, after a sequence of N = 1 ≤ 2 accepted recordings the
(N+1)-th recording is accepted as well — it throws nothing — contradicting
the claim that the (N+1)-th recording fails with TOOL_LIMIT for every
N ≤ maxToolCalls. -/
theorem C7_counterexample :
    recordSeq tlLimits (initState 0) [0] =
      (none, { initState 0 with toolCallsUsed := 1 }) ∧
    (recordToolCall tlLimits { initState 0 with toolCallsUsed := 1 } 0).1 =
      none :=
  ⟨rfl, rfl⟩

/-- Claim C6: in fail-open mode a guarded call whose result carries no
usable usage does not raise: it returns the result, adds nothing to
`tokensUsed`, and flips `tokenAccountingReliable` to false.  From any such
state the flag stays false and no termination is ever stored under any
sequence of guarded operations, no guarded operation ever fails with
TOKEN_LIMIT (the cumulative limit is never enforced for the life of the
instance), later calls that do carry usage still add it to `tokensUsed`,
and the timeout, step and tool limits remain enforced. -/
theorem C6_fail_open_missing_usage {ε α : Type} (limits : BudgetLimits)
    (hmode : limits.tokenAccountingMode = .failOpen) :
    (∀ (state : BudgetState) (t : Int) (params : CallParams)
        (fn : CallParams → Except ε (Response α)) (resp : Response α),
      preCallCheck limits state t = none →
      fn (clampParams limits params) = .ok resp →
      extractUsage resp.usage = none →
      guardedResponse limits state t params fn =
        (.ok resp, { state with
                       stepsUsed := state.stepsUsed + 1
                       tokenAccountingReliable := false })) ∧
    (∀ state : BudgetState,
      state.tokenAccountingReliable = false →
      state.terminatedReason = none →
      (∀ ops : List (GuardOp ε α),
        (runOps limits state ops).tokenAccountingReliable = false ∧
        (runOps limits state ops).terminatedReason = none) ∧
      (∀ (t : Int) (e : BudgetError),
        (recordToolCall limits state t).1 = some e →
        e.reason ≠ .TOKEN_LIMIT) ∧
      (∀ (t : Int) (params : CallParams)
          (fn : CallParams → Except ε (Response α)) (e : BudgetError),
        (guardedResponse limits state t params fn).1 = .error (.budget e) →
        e.reason ≠ .TOKEN_LIMIT) ∧
      (∀ (t : Int) (params : CallParams)
          (fn : CallParams → Except ε (Response α)) (resp : Response α)
          (u : Nat),
        preCallCheck limits state t = none →
        fn (clampParams limits params) = .ok resp →
        extractUsage resp.usage = some u →
        guardedResponse limits state t params fn =
          (.ok resp, { state with
                         stepsUsed := state.stepsUsed + 1
                         tokensUsed := state.tokensUsed + u })) ∧
      (∀ t : Int, t - state.startTime ≥ (limits.timeoutMs : Int) →
        (recordToolCall limits state t).1 =
          some { reason := .TIMEOUT
                 snapshot := some (createSnapshot limits state t none)
                 executionId := limits.executionId }) ∧
      (∀ t : Int, ¬ t - state.startTime ≥ (limits.timeoutMs : Int) →
        state.toolCallsUsed + 1 > limits.maxToolCalls →
        (recordToolCall limits state t).1 =
          some { reason := .TOOL_LIMIT
                 snapshot := some (createSnapshot limits state t none)
                 executionId := limits.executionId }) ∧
      (∀ (t : Int) (params : CallParams)
          (fn : CallParams → Except ε (Response α)),
        ¬ t - state.startTime ≥ (limits.timeoutMs : Int) →
        state.stepsUsed + 1 > limits.maxSteps →
        (guardedResponse limits state t params fn).1 =
          .error (.budget { reason := .STEP_LIMIT
                            snapshot := some (createSnapshot limits state t none)
                            executionId := limits.executionId }))) := by
  constructor
  · intro state t params fn resp hpre hfn hu
    rw [guardedResponse_fnOk limits state t params fn resp hpre hfn]
    rw [settleCall_unavailable_failOpen limits
      { state with stepsUsed := state.stepsUsed + 1 } t resp hu hmode]
  · intro state hrel hterm
    refine ⟨fun ops => runOps_preserves_unreliable limits state hrel hterm ops,
            ?_, ?_, ?_, ?_, ?_, ?_⟩
    · intro t e he hr
      rcases recordToolCall_reason_of_unterminated limits state t e hterm he
        with h | h <;> rw [hr] at h <;> cases h
    · intro t params fn e he hr
      rcases guardedResponse_reason_of_unterminated limits state t params fn e
        hterm he with h | h | h <;> rw [hr] at h <;> cases h
    · intro t params fn resp u hpre hfn hu
      rw [guardedResponse_fnOk limits state t params fn resp hpre hfn]
      rw [settleCall_usage_within limits
        { state with stepsUsed := state.stepsUsed + 1 } t resp u hu
        (fun hc => Bool.false_ne_true (hrel ▸ hc.1))]
    · intro t h
      rw [recordToolCall_timeout limits state t h]
    · intro t h htool
      rw [recordToolCall_toolLimit limits state t h htool]
    · intro t params fn h hstep
      rw [guardedResponse_precheck limits state t params fn _
        (preCallCheck_stepLimit limits state t h hstep)]

theorem C6_witness :
    guardedResponse foLimits (initState 0) 0 {} fnNoUsage =
      (.ok { payload := (), usage := none },
       { initState 0 with
           stepsUsed := (initState 0).stepsUsed + 1
           tokenAccountingReliable := false }) ∧
    (runOps foLimits foState
      ([GuardOp.tool 1, GuardOp.call 2 {} fnHigh] :
        List (GuardOp Unit Unit))).terminatedReason = none ∧
    guardedResponse foLimits foState 3 {} fnHigh =
      (.ok { payload := (), usage := some { total_tokens := some 5000 } },
       { foState with
           stepsUsed := foState.stepsUsed + 1
           tokensUsed := foState.tokensUsed + 5000 }) ∧
    (recordToolCall foLimits foState 99999).1 =
      some { reason := .TIMEOUT
             snapshot := some (createSnapshot foLimits foState 99999 none)
             executionId := foLimits.executionId } := by
  have h := C6_fail_open_missing_usage (ε := Unit) (α := Unit) foLimits rfl
  have hB := h.2 foState rfl rfl
  exact ⟨h.1 (initState 0) 0 {} fnNoUsage { payload := (), usage := none }
           rfl rfl rfl,
         (hB.1 [GuardOp.tool 1, GuardOp.call 2 {} fnHigh]).2,
         hB.2.2.2.1 3 {} fnHigh
           { payload := (), usage := some { total_tokens := some 5000 } }
           5000 rfl rfl rfl,
         hB.2.2.2.2.1 99999 (by decide)⟩

end LLMBudget
